import Mathlib

/-!
# Verification of the podcast_player repository

A shallow embedding, in Lean 4, of the parts of the `podcast_player`
repository that the specification's claims are about, together with
theorems settling each claim.

Conventions of the embedding:
* Python `float` values (playback positions, `time.time()` timestamps) are
  modelled as exact rationals (`ℚ`); no claim depends on floating-point
  rounding.
* Python dictionaries keyed by strings are modelled as functions
  `String → Option _`.
* Stateful methods become pure functions that take the state and return the
  updated state; calls into the state store and the audio process are also
  recorded in an explicit event trace (`Event`) so that ordering claims can
  be stated.
* Fallible paths that the source catches are modelled by `Option`-valued
  inputs (e.g. the IPC channel result) — total functions, mirroring the
  source's "never raises" handlers.
* A few methods of this repository are called from `podcast_player.py` but
  their definitions are not under `src/` (`StateManager.get_music`,
  `save_music`, `reset_music`, `mark_music_completed`,
  `update_music_position`, `AudioPlayer.is_active`, `AudioPlayer.has_ended`).
  These are modelled from the spec; each such definition carries a doc
  comment starting with `Modelled from the spec:`.
-/

/-! ## Hardware: `src/hardware.py` -/

/-- Embedding of `hardware.SwitchState` (the 4-value enum). -/
inductive SwitchState where
  | podcast_select
  | paused
  | playing
  | music_mode
deriving DecidableEq, Repr

/-- `STABLE_READS = 5` from `src/hardware.py`. -/
def STABLE_READS : Nat := 5

/-- `TRANSITION_TIMEOUT_MS = 1000` from `src/hardware.py`. -/
def TRANSITION_TIMEOUT_MS : ℚ := 1000

/-- The debounce state held by `HardwareController` across calls to
`read_state` (`self.last_podcast_index`, `self._stable_count`,
`self._last_sample`, `self._last_confirm`, `self._last_confirm_time`).
`last_sample`/`last_confirm` start as Python `None`, hence `Option Int`.
Timestamps are `time.time()` seconds, modelled as `ℚ`. -/
structure DebounceState where
  last_podcast_index : Int
  stable_count : Nat
  last_sample : Option Int
  last_confirm : Option Int
  last_confirm_time : ℚ
deriving DecidableEq, Repr

/-- The initial state set in `HardwareController.__init__`. -/
def initHW : DebounceState :=
  { last_podcast_index := 1, stable_count := 0, last_sample := none,
    last_confirm := none, last_confirm_time := 0 }

/-- The `lows` list of `HardwareController._read_rotary_raw`: indices of
the position lines whose level reads LOW.  `levels` holds one boolean per
pin, `true` = the line reads electrically HIGH, `false` = LOW (contact). -/
def rotary_lows (levels : List Bool) : List Nat :=
  (List.range levels.length).filter (fun i => levels.getD i true = false)

/-- Embedding of `HardwareController._read_rotary_raw`: exactly one LOW
line yields `index + 1` (1..12), none yields `0` (no contact), several
yield `-1` (contention). -/
def read_rotary_raw (levels : List Bool) : Int :=
  if (rotary_lows levels).length = 1 then ((rotary_lows levels).headD 0 : Int) + 1
  else if (rotary_lows levels).length = 0 then 0
  else -1

/-- Embedding of the mode decode in `HardwareController.read_state`
(lines 86-98): `pin_play`/`pin_music` are the levels of the two mode lines
(`true` = HIGH).  The "both LOW" anomaly falls back to `paused`. -/
def decode_mode (pin_play pin_music : Bool) : SwitchState :=
  if pin_play = false ∧ pin_music = true then .playing
  else if pin_play = true ∧ pin_music = false then .music_mode
  else if pin_play = true ∧ pin_music = true then .paused
  else .paused

/-- The updated value of `self._stable_count` on one debounce step:
incremented if the raw sample repeats the previous one, otherwise reset
to 1. -/
def nextCount (s : DebounceState) (raw : Int) : Nat :=
  if some raw = s.last_sample then s.stable_count + 1 else 1

/-- Embedding of the rotary-debounce portion of
`HardwareController.read_state` (`src/hardware.py` lines 100-118): one raw
sample `raw` observed at time `now` updates the debounce state.  The match
counter increments on a repeated sample and resets to 1 otherwise; a sample
is confirmed when the counter reaches `STABLE_READS`, the sample is `> 0`,
and it differs from the last confirmed value **or** more than
`TRANSITION_TIMEOUT_MS / 1000` seconds passed since the last
confirmation. -/
def read_state_debounce (s : DebounceState) (raw : Int) (now : ℚ) : DebounceState :=
  if STABLE_READS ≤ nextCount s raw ∧ 0 < raw then
    if s.last_confirm ≠ some raw ∨ TRANSITION_TIMEOUT_MS / 1000 < now - s.last_confirm_time then
      { last_podcast_index := raw, stable_count := nextCount s raw, last_sample := some raw,
        last_confirm := some raw, last_confirm_time := now }
    else { s with stable_count := nextCount s raw, last_sample := some raw }
  else { s with stable_count := nextCount s raw, last_sample := some raw }

/-- One poll's raw inputs to `HardwareController.read_state`: the two mode
lines, the 12 rotary lines, and the current time. -/
structure ReadInput where
  pin_play : Bool
  pin_music : Bool
  rotary : List Bool
  now : ℚ

/-- Embedding of `HardwareController.read_state` on the GPIO-available,
no-exception path: returns `(mode, last_podcast_index)` and the updated
debounce state. -/
def read_state (s : DebounceState) (i : ReadInput) : (SwitchState × Option Int) × DebounceState :=
  ((decode_mode i.pin_play i.pin_music,
    some (read_state_debounce s (read_rotary_raw i.rotary) i.now).last_podcast_index),
   read_state_debounce s (read_rotary_raw i.rotary) i.now)

/-- Fold a sequence of raw samples through the debouncer. -/
def runDebounce (s : DebounceState) (tr : List (Int × ℚ)) : DebounceState :=
  tr.foldl (fun st p => read_state_debounce st p.1 p.2) s

/-- Fold a sequence of polls through `read_state`. -/
def runReadState (s : DebounceState) (ins : List ReadInput) : DebounceState :=
  ins.foldl (fun st i => (read_state st i).2) s

theorem runDebounce_append (s : DebounceState) (tr : List (Int × ℚ)) (p : Int × ℚ) :
    runDebounce s (tr ++ [p]) = read_state_debounce (runDebounce s tr) p.1 p.2 := by
  simp [runDebounce, List.foldl_append]

/-- `_read_rotary_raw` over the 12 position lines only produces values in
`{-1, 0} ∪ [1, 12]`. -/
theorem read_rotary_raw_range (levels : List Bool) (h : levels.length = 12) :
    (-1 ≤ read_rotary_raw levels ∧ read_rotary_raw levels ≤ 12) := by
  unfold read_rotary_raw
  split
  · rename_i h1
    have hm : (rotary_lows levels).headD 0 ∈ rotary_lows levels := by
      cases hc : rotary_lows levels with
      | nil => rw [hc] at h1; simp at h1
      | cons a t => simp [hc]
    have h12 : (rotary_lows levels).headD 0 < 12 := by
      have := List.mem_filter.mp hm
      have := List.mem_range.mp this.1
      omega
    constructor
    · omega
    · omega
  · split <;> omega

theorem read_state_debounce_count (s : DebounceState) (raw : Int) (now : ℚ) :
    (read_state_debounce s raw now).stable_count = nextCount s raw := by
  unfold read_state_debounce
  split
  · split <;> rfl
  · rfl

theorem read_state_debounce_sample (s : DebounceState) (raw : Int) (now : ℚ) :
    (read_state_debounce s raw now).last_sample = some raw := by
  unfold read_state_debounce
  split
  · split <;> rfl
  · rfl

/-- If a single debounce step changes `last_podcast_index`, then the new
value is the raw sample itself, the (updated) stability counter is at least
`STABLE_READS`, and the sample is positive. -/
theorem read_state_debounce_change (s : DebounceState) (raw : Int) (now : ℚ)
    (h : (read_state_debounce s raw now).last_podcast_index ≠ s.last_podcast_index) :
    (read_state_debounce s raw now).last_podcast_index = raw ∧
    STABLE_READS ≤ nextCount s raw ∧
    0 < raw := by
  unfold read_state_debounce at h ⊢
  split at h
  · rename_i h1
    split at h
    · rename_i h2
      rw [if_pos h1, if_pos h2]
      exact ⟨rfl, h1.1, h1.2⟩
    · simp at h
  · simp at h

/-- After any run of the debouncer from its initial state, the stability
counter never exceeds the number of samples consumed. -/
theorem runDebounce_count_le (tr : List (Int × ℚ)) :
    (runDebounce initHW tr).stable_count ≤ tr.length := by
  induction tr using List.reverseRecOn with
  | nil => simp [runDebounce, initHW]
  | append_singleton ys p ih =>
      rw [runDebounce_append, read_state_debounce_count]
      unfold nextCount
      split
      · simp only [List.length_append, List.length_singleton]; omega
      · simp only [List.length_append, List.length_singleton]; omega

/-- The stability counter counts a genuine suffix: after running the
debouncer from its initial state, the last `stable_count` samples of the
trace all equal the recorded `last_sample`. -/
theorem runDebounce_suffix (tr : List (Int × ℚ)) :
    ∀ q ∈ tr.drop (tr.length - (runDebounce initHW tr).stable_count),
      some q.1 = (runDebounce initHW tr).last_sample := by
  induction tr using List.reverseRecOn with
  | nil => simp [runDebounce, initHW]
  | append_singleton ys p ih =>
      have hle := runDebounce_count_le ys
      rw [runDebounce_append, read_state_debounce_count, read_state_debounce_sample]
      unfold nextCount
      by_cases hsame : some p.1 = (runDebounce initHW ys).last_sample
      · rw [if_pos hsame]
        intro q hq
        have harith : (ys ++ [p]).length - ((runDebounce initHW ys).stable_count + 1)
            = ys.length - (runDebounce initHW ys).stable_count := by
          simp only [List.length_append, List.length_singleton]
          omega
        rw [harith, List.drop_append_of_le_length (by omega)] at hq
        rcases List.mem_append.mp hq with hq | hq
        · exact (ih q hq).trans hsame.symm
        · simp at hq; rw [hq]
      · rw [if_neg hsame]
        intro q hq
        have harith : (ys ++ [p]).length - 1 = ys.length := by simp
        rw [harith, List.drop_append_of_le_length (by omega)] at hq
        rcases List.mem_append.mp hq with hq | hq
        · simp at hq
        · simp at hq; rw [hq]

/-- **C1 (amended).**  In `HardwareController.read_state`, for every
sequence of raw rotary samples, a raw value `v` becomes the newly confirmed
selection only when `v` has repeated for at least `STABLE_READS = 5`
consecutive polls (the last `stable_count ≥ 5` samples of the trace all
equal `v`), `v` is a valid position in `1..12`, and `v` differs from the
currently confirmed selection.  (The original claim's further requirement
that at least `TRANSITION_TIMEOUT_MS = 1000` ms have elapsed since the last
confirmation does **not** hold: the source combines that clause with
"differs from the last confirmed value" by `or`, not `and`, so a differing
value is confirmed immediately once stable — see the counterexample.) -/
theorem claim_C1_amended (tr : List (Int × ℚ)) (p : Int × ℚ)
    (hrange : -1 ≤ p.1 ∧ p.1 ≤ 12)
    (hchange : (runDebounce initHW (tr ++ [p])).last_podcast_index
      ≠ (runDebounce initHW tr).last_podcast_index) :
    (runDebounce initHW (tr ++ [p])).last_podcast_index = p.1 ∧
    1 ≤ p.1 ∧ p.1 ≤ 12 ∧
    p.1 ≠ (runDebounce initHW tr).last_podcast_index ∧
    STABLE_READS ≤ (runDebounce initHW (tr ++ [p])).stable_count ∧
    ∀ q ∈ (tr ++ [p]).drop
        ((tr ++ [p]).length - (runDebounce initHW (tr ++ [p])).stable_count),
      q.1 = p.1 := by
  rw [runDebounce_append] at hchange
  obtain ⟨hidx, hcount, hpos⟩ :=
    read_state_debounce_change (runDebounce initHW tr) p.1 p.2 hchange
  refine ⟨by rw [runDebounce_append]; exact hidx, by omega, hrange.2,
    by rw [← hidx]; exact hchange, ?_, ?_⟩
  · rw [runDebounce_append, read_state_debounce_count]
    exact hcount
  · intro q hq
    have hmem := runDebounce_suffix (tr ++ [p]) q hq
    rw [runDebounce_append, read_state_debounce_sample] at hmem
    exact Option.some.inj hmem

/-- Witness for C1 (amended): after five stable samples of `2` the
selection confirms to `2`; five subsequent stable samples of `3` (all at
time `0`) change the confirmed selection to `3`, and the theorem's
conclusion holds at that input. -/
theorem claim_C1_amended_witness :
    ((-1 ≤ ((3 : Int), (0 : ℚ)).1 ∧ ((3 : Int), (0 : ℚ)).1 ≤ 12) ∧
      (runDebounce initHW ([((2 : Int), (0 : ℚ)), (2, 0), (2, 0), (2, 0), (2, 0),
          (3, 0), (3, 0), (3, 0), (3, 0)] ++ [(3, 0)])).last_podcast_index
        ≠ (runDebounce initHW [((2 : Int), (0 : ℚ)), (2, 0), (2, 0), (2, 0), (2, 0),
          (3, 0), (3, 0), (3, 0), (3, 0)]).last_podcast_index) ∧
    ((runDebounce initHW ([((2 : Int), (0 : ℚ)), (2, 0), (2, 0), (2, 0), (2, 0),
          (3, 0), (3, 0), (3, 0), (3, 0)] ++ [(3, 0)])).last_podcast_index = 3 ∧
      (1 : Int) ≤ 3 ∧ (3 : Int) ≤ 12 ∧
      (3 : Int) ≠ (runDebounce initHW [((2 : Int), (0 : ℚ)), (2, 0), (2, 0), (2, 0), (2, 0),
          (3, 0), (3, 0), (3, 0), (3, 0)]).last_podcast_index ∧
      STABLE_READS ≤ (runDebounce initHW ([((2 : Int), (0 : ℚ)), (2, 0), (2, 0), (2, 0), (2, 0),
          (3, 0), (3, 0), (3, 0), (3, 0)] ++ [(3, 0)])).stable_count ∧
      ∀ q ∈ ([((2 : Int), (0 : ℚ)), (2, 0), (2, 0), (2, 0), (2, 0),
          (3, 0), (3, 0), (3, 0), (3, 0)] ++ [(3, 0)]).drop
          (([((2 : Int), (0 : ℚ)), (2, 0), (2, 0), (2, 0), (2, 0),
            (3, 0), (3, 0), (3, 0), (3, 0)] ++ [(3, 0)]).length -
            (runDebounce initHW ([((2 : Int), (0 : ℚ)), (2, 0), (2, 0), (2, 0), (2, 0),
              (3, 0), (3, 0), (3, 0), (3, 0)] ++ [(3, 0)])).stable_count),
        q.1 = 3) :=
  ⟨⟨by decide, by decide⟩,
    claim_C1_amended [((2 : Int), (0 : ℚ)), (2, 0), (2, 0), (2, 0), (2, 0),
      (3, 0), (3, 0), (3, 0), (3, 0)] ((3 : Int), (0 : ℚ)) (by decide) (by decide)⟩

/-- **C1 counterexample.**  The claim as stated is false on the code: after
`2` is confirmed (at time `0`), five stable samples of `3` change the
confirmed selection at time `0` as well, i.e. with strictly less than
`TRANSITION_TIMEOUT_MS` elapsed since the last confirmation — the code
confirms a *differing* stable value regardless of the elapsed time. -/
theorem claim_C1_counterexample :
    (read_state_debounce
        (runDebounce initHW [((2 : Int), (0 : ℚ)), (2, 0), (2, 0), (2, 0), (2, 0),
          (3, 0), (3, 0), (3, 0), (3, 0)]) 3 0).last_podcast_index = 3 ∧
    (runDebounce initHW [((2 : Int), (0 : ℚ)), (2, 0), (2, 0), (2, 0), (2, 0),
        (3, 0), (3, 0), (3, 0), (3, 0)]).last_podcast_index = 2 ∧
    (runDebounce initHW [((2 : Int), (0 : ℚ)), (2, 0), (2, 0), (2, 0), (2, 0),
        (3, 0), (3, 0), (3, 0), (3, 0)]).last_confirm_time = 0 ∧
    (0 : ℚ) - 0 < TRANSITION_TIMEOUT_MS / 1000 := by
  exact ⟨by decide, by decide, by decide, by norm_num [TRANSITION_TIMEOUT_MS]⟩

/-- **C2 (confirmed).**  For every sequence of calls to
`HardwareController.read_state` in which every rotary sample decodes to the
invalid values `0` (no contact) or `-1` (contention), the confirmed
selection returned by `read_state` (`last_podcast_index`) and the confirmed
value (`last_confirm`) are unchanged — such samples never become the
confirmed selection and never clear it, regardless of how often they
repeat. -/
theorem claim_C2 (s : DebounceState) (ins : List ReadInput)
    (h : ∀ i ∈ ins, read_rotary_raw i.rotary = 0 ∨ read_rotary_raw i.rotary = -1) :
    (runReadState s ins).last_podcast_index = s.last_podcast_index ∧
    (runReadState s ins).last_confirm = s.last_confirm := by
  induction ins generalizing s with
  | nil => exact ⟨rfl, rfl⟩
  | cons i rest ih =>
      have hraw := h i (by simp)
      have hng : ¬ (STABLE_READS ≤ nextCount s (read_rotary_raw i.rotary)
          ∧ 0 < read_rotary_raw i.rotary) := by
        rintro ⟨-, hpos⟩
        rcases hraw with h0 | h0 <;> rw [h0] at hpos <;> exact absurd hpos (by decide)
      have hstep : (read_state s i).2.last_podcast_index = s.last_podcast_index ∧
          (read_state s i).2.last_confirm = s.last_confirm := by
        unfold read_state read_state_debounce
        rw [if_neg hng]
        exact ⟨rfl, rfl⟩
      have hrest := ih ((read_state s i).2) (fun j hj => h j (by simp [hj]))
      unfold runReadState at hrest ⊢
      simp only [List.foldl_cons]
      exact ⟨hrest.1.trans hstep.1, hrest.2.trans hstep.2⟩

/-- Witness for C2: six consecutive contention readings (two rotary lines
LOW simultaneously) leave the confirmed selection and confirmation value of
the initial state untouched. -/
theorem claim_C2_witness :
    (∀ i ∈ List.replicate 6
        ({ pin_play := false, pin_music := true,
           rotary := [false, false, true, true, true, true, true, true, true, true, true, true],
           now := 0 } : ReadInput),
      read_rotary_raw i.rotary = 0 ∨ read_rotary_raw i.rotary = -1) ∧
    (runReadState initHW (List.replicate 6
        ({ pin_play := false, pin_music := true,
           rotary := [false, false, true, true, true, true, true, true, true, true, true, true],
           now := 0 } : ReadInput))).last_podcast_index = initHW.last_podcast_index ∧
    (runReadState initHW (List.replicate 6
        ({ pin_play := false, pin_music := true,
           rotary := [false, false, true, true, true, true, true, true, true, true, true, true],
           now := 0 } : ReadInput))).last_confirm = initHW.last_confirm :=
  ⟨by decide,
    claim_C2 initHW (List.replicate 6
      ({ pin_play := false, pin_music := true,
         rotary := [false, false, true, true, true, true, true, true, true, true, true, true],
         now := 0 } : ReadInput)) (by decide)⟩

/-! ## State store: `src/state_manager.py` -/

/-- An episode entry of the persisted document (`state.json`), as created in
`PodcastPlayer._update_episodes` and validated in
`StateManager._validate_state`.  The `completed`/`completed_at` markers of
`mark_episode_completed` are modelled by `completed` (the timestamp string
is not modelled); `last_played` is the ISO timestamp written by
`update_position`. -/
structure Episode where
  guid : String
  title : String
  file : String
  position : ℚ
  completed : Bool
  last_played : Option String
deriving DecidableEq, Repr

/-- A per-podcast entry of the persisted document (`'episodes'`,
`'current_index'`, `'total_time'`; the `'created'` timestamp string is not
modelled). -/
structure PodcastState where
  episodes : List Episode
  current_index : Nat
  total_time : Nat
deriving DecidableEq, Repr

/-- Modelled from the spec: the per-album entry of the persisted document
(spec §3 `AlbumState`: `{folder, tracks, currentTrack, position,
completed}`; `totalTime`/`lastPlayed` are not modelled).  The album half of
`StateManager` (`get_music`, `save_music`, `reset_music`,
`mark_music_completed`, `update_music_position`) is called from
`src/podcast_player.py` but absent from `src/state_manager.py`. -/
structure AlbumState where
  folder : String
  tracks : List String
  current_track : Nat
  position : ℚ
  completed : Bool
deriving DecidableEq, Repr

/-- The in-memory persisted document owned by `StateManager`
(`self.state`): the `'podcasts'` map and the spec's `music` map
(`version`/`last_check`/timestamp metadata are not modelled). -/
structure SessionDocument where
  podcasts : String → Option PodcastState
  music : String → Option AlbumState

/-- The default podcast entry lazily created by `StateManager.get_podcast`
(`'episodes': [], 'current_index': 0, 'total_time': 0`; the `'created'`
timestamp is not modelled). -/
def default_podcast_state : PodcastState :=
  { episodes := [], current_index := 0, total_time := 0 }

def set_podcast (doc : SessionDocument) (pid : String) (ps : PodcastState) : SessionDocument :=
  { doc with podcasts := fun k => if k = pid then some ps else doc.podcasts k }

/-- Embedding of `StateManager.get_podcast`: return the stored entry,
lazily creating (and persisting) a default entry on first access.  Returns
the entry together with the possibly-extended document. -/
def get_podcast (doc : SessionDocument) (pid : String) : PodcastState × SessionDocument :=
  match doc.podcasts pid with
  | some ps => (ps, doc)
  | none => (default_podcast_state, set_podcast doc pid default_podcast_state)

/-- Placeholder episode used only to state `List.getD` at indices the
source has already bounds-checked. -/
def default_episode : Episode :=
  { guid := "", title := "", file := "", position := 0, completed := false,
    last_played := none }

/-- Embedding of `StateManager.update_position`: look up (lazily creating)
the podcast entry; if `0 <= episode_index < len(episodes)`, set that
episode's `position` and `last_played` (to `now`) and increment
`total_time`; otherwise only log a warning (no exception is raised, nothing
else changes). -/
def update_position (doc : SessionDocument) (podcast_id : String)
    (episode_index : Int) (position : ℚ) (now : String) : SessionDocument :=
  if 0 ≤ episode_index ∧ episode_index < ((get_podcast doc podcast_id).1.episodes.length : Int) then
    set_podcast (get_podcast doc podcast_id).2 podcast_id
      { episodes := (get_podcast doc podcast_id).1.episodes.set episode_index.toNat
          { (get_podcast doc podcast_id).1.episodes.getD episode_index.toNat default_episode with
              position := position, last_played := some now },
        current_index := (get_podcast doc podcast_id).1.current_index,
        total_time := (get_podcast doc podcast_id).1.total_time + 1 }
  else (get_podcast doc podcast_id).2

/-- Modelled from the spec: the default album entry lazily created by
`SessionStore.getMusic` on first access (spec §4.3; definition absent from
`src/state_manager.py`). -/
def default_album_state : AlbumState :=
  { folder := "", tracks := [], current_track := 0, position := 0, completed := false }

def set_music (doc : SessionDocument) (mid : String) (a : AlbumState) : SessionDocument :=
  { doc with music := fun k => if k = mid then some a else doc.music k }

/-- Modelled from the spec: `StateManager.get_music` — "getMusic(id):
lazily create and persist a default entry on first access" (spec §4.3);
the definition is absent from `src/state_manager.py`. -/
def get_music (doc : SessionDocument) (mid : String) : AlbumState × SessionDocument :=
  match doc.music mid with
  | some a => (a, doc)
  | none => (default_album_state, set_music doc mid default_album_state)

/-- Modelled from the spec: `StateManager.save_music` — "saveMusic(id,
folder, tracks, currentTrack, position, completed): full-replace of an
album's state" (spec §4.3); absent from `src/state_manager.py`. -/
def save_music (doc : SessionDocument) (mid : String) (folder : String)
    (tracks : List String) (current_track : Nat) (position : ℚ)
    (completed : Bool) : SessionDocument :=
  set_music doc mid
    { folder := folder, tracks := tracks, current_track := current_track,
      position := position, completed := completed }

/-- Modelled from the spec: `StateManager.reset_music` — "reset(id):
explicit lifecycle operation for album replay" (spec §4.3), resetting the
stored album state back to the default empty entry (track 0, position 0,
not completed); absent from `src/state_manager.py`. -/
def reset_music (doc : SessionDocument) (mid : String) : SessionDocument :=
  set_music doc mid default_album_state

/-- Modelled from the spec: `StateManager.mark_music_completed` —
"markCompleted(id)" (spec §4.3); per the spec's scenario the album state
becomes `{completed: true, currentTrack: 0, position: 0}` (folder and track
list retained); absent from `src/state_manager.py`. -/
def mark_music_completed (doc : SessionDocument) (mid : String) : SessionDocument :=
  set_music (get_music doc mid).2 mid
    { (get_music doc mid).1 with completed := true, current_track := 0, position := 0 }

/-- Modelled from the spec: `StateManager.update_music_position` — the
music analogue of `updatePosition` (spec §4.3/§5): store the sampled
playback position (and the track it belongs to) in the album's entry,
leaving `folder`, `tracks` and `completed` unchanged; absent from
`src/state_manager.py`. -/
def update_music_position (doc : SessionDocument) (mid : String)
    (track_index : Nat) (position : ℚ) : SessionDocument :=
  set_music (get_music doc mid).2 mid
    { (get_music doc mid).1 with current_track := track_index, position := position }

/-- **C10 (confirmed).**  For every podcast id and episode index outside
`[0, number of stored episodes)`, `StateManager.update_position` is a
no-exception no-op on episode data: the resulting document is exactly the
one `get_podcast` returns (whose only possible change is the lazy creation
of a default empty entry for a previously unknown id), every pre-existing
podcast entry — hence every stored episode's `position`, `last_played` and
`completed` — is unchanged, and a created entry is exactly the default
empty entry. -/
theorem claim_C10 (doc : SessionDocument) (podcast_id : String)
    (episode_index : Int) (position : ℚ) (now : String)
    (h : episode_index < 0 ∨
      ((get_podcast doc podcast_id).1.episodes.length : Int) ≤ episode_index) :
    update_position doc podcast_id episode_index position now
      = (get_podcast doc podcast_id).2 ∧
    (∀ pid' ps, doc.podcasts pid' = some ps →
      (update_position doc podcast_id episode_index position now).podcasts pid' = some ps) ∧
    (doc.podcasts podcast_id = none →
      (update_position doc podcast_id episode_index position now).podcasts podcast_id
        = some default_podcast_state) := by
  have hng : ¬ (0 ≤ episode_index ∧
      episode_index < ((get_podcast doc podcast_id).1.episodes.length : Int)) := by
    rintro ⟨h1, h2⟩
    rcases h with h | h <;> omega
  have heq : update_position doc podcast_id episode_index position now
      = (get_podcast doc podcast_id).2 := by
    unfold update_position
    rw [if_neg hng]
  refine ⟨heq, ?_, ?_⟩
  · intro pid' ps hps
    rw [heq]
    unfold get_podcast
    cases hc : doc.podcasts podcast_id with
    | some _ => exact hps
    | none =>
        simp only [set_podcast]
        by_cases hpe : pid' = podcast_id
        · rw [hpe] at hps; rw [hps] at hc; exact absurd hc (by simp)
        · simp only [if_neg hpe]; exact hps
  · intro hc
    rw [heq]
    unfold get_podcast
    rw [hc]
    simp [set_podcast]

/-- Witness for C10: a document storing one podcast with a single episode,
updated at the out-of-range index 5, is returned unchanged. -/
theorem claim_C10_witness :
    (((5 : Int) < 0 ∨
      ((get_podcast
          ⟨fun k => if k = "podcast_1"
            then some { episodes := [default_episode], current_index := 0, total_time := 0 }
            else none, fun _ => none⟩ "podcast_1").1.episodes.length : Int) ≤ 5) ∧
      update_position
          ⟨fun k => if k = "podcast_1"
            then some { episodes := [default_episode], current_index := 0, total_time := 0 }
            else none, fun _ => none⟩ "podcast_1" 5 30 "t"
        = (get_podcast
          ⟨fun k => if k = "podcast_1"
            then some { episodes := [default_episode], current_index := 0, total_time := 0 }
            else none, fun _ => none⟩ "podcast_1").2) :=
  ⟨by right; decide,
    (claim_C10
      ⟨fun k => if k = "podcast_1"
        then some { episodes := [default_episode], current_index := 0, total_time := 0 }
        else none, fun _ => none⟩ "podcast_1" 5 30 "t" (by right; decide)).1⟩

/-! ## Atomic persistence: `StateManager.save` -/

/-- Contents of a file on disk: a completely serialized document, or a
partially written one (interrupted write). -/
inductive FileContent where
  | complete (d : SessionDocument)
  | part

/-- The two files `StateManager.save` touches: the target state file and
the sibling `.tmp` file. -/
structure FsState where
  target : Option FileContent
  temp : Option FileContent

/-- The primitive filesystem operations performed by `StateManager.save`:
writing the serialized document to the sibling temp file, and
`Path.replace` — the atomic rename of the temp file over the target. -/
inductive SaveStep where
  | writeTemp (d : SessionDocument)
  | renameTempToTarget

/-- Effect of one completed filesystem operation.  The rename is atomic
(an OS guarantee of `os.replace`): in one step the target becomes the temp
file's full contents. -/
def applyStep (fs : FsState) (s : SaveStep) : FsState :=
  match s with
  | .writeTemp d => { fs with temp := some (.complete d) }
  | .renameTempToTarget =>
      match fs.temp with
      | some c => { target := some c, temp := none }
      | none => fs

/-- Embedding of `StateManager.save` as the sequence of filesystem
operations it performs: a throttled call (`not force` and less than one
second since the last save) performs none; otherwise the whole document is
serialized and written to the sibling temp file, which is then atomically
renamed over the target. -/
def save_program (force : Bool) (elapsed : ℚ) (d : SessionDocument) : List SaveStep :=
  if force = false ∧ elapsed < 1 then []
  else [.writeTemp d, .renameTempToTarget]

def isWriteStep : Option SaveStep → Bool
  | some (.writeTemp _) => true
  | _ => false

/-- Fault-model executor for `StateManager.save`: the first `k` operations
complete; if `torn` is set and the next pending operation is a write, that
write is interrupted midway, leaving the temp file partially written (the
error is caught and logged by `save`; a crash behaves the same on disk).
The rename itself is atomic and cannot be half-done. -/
def run_save (fs : FsState) (force : Bool) (elapsed : ℚ) (d : SessionDocument)
    (k : Nat) (torn : Bool) : FsState :=
  if torn ∧ isWriteStep ((save_program force elapsed d).get? k) = true then
    { ((save_program force elapsed d).take k).foldl applyStep fs with temp := some .part }
  else ((save_program force elapsed d).take k).foldl applyStep fs

/-- **C5 (confirmed).**  `StateManager.save` writes the serialized document
to a sibling temp file and atomically renames it over the target: however
far the save gets (including an interrupted write or a crash between the
two steps), the target file holds either the previously persisted contents
or the complete new document — a reader of the state file never observes a
partially written document, and a failed write leaves the previous document
intact.  A save that runs to completion leaves exactly the new document. -/
theorem claim_C5 (fs : FsState) (force : Bool) (elapsed : ℚ)
    (d : SessionDocument) (k : Nat) (torn : Bool)
    (h : fs.target ≠ some .part) :
    ((run_save fs force elapsed d k torn).target = fs.target ∨
      (run_save fs force elapsed d k torn).target = some (.complete d)) ∧
    (run_save fs force elapsed d k torn).target ≠ some .part ∧
    (2 ≤ k → save_program force elapsed d ≠ [] →
      (run_save fs force elapsed d k torn).target = some (.complete d)) := by
  unfold run_save
  cases hprog : save_program force elapsed d with
  | nil =>
      simp only [hprog, List.take_nil, List.foldl_nil, List.get?_nil]
      constructor
      · split <;> simp
      · refine ⟨?_, fun _ hne => absurd rfl hne⟩
        split <;> exact h
  | cons s1 rest =>
      have hform : s1 = SaveStep.writeTemp d ∧ rest = [SaveStep.renameTempToTarget] := by
        unfold save_program at hprog
        split at hprog
        · exact absurd hprog (by simp)
        · exact ⟨(List.cons.injEq _ _ _ _ ▸ hprog).1.symm,
            (List.cons.injEq _ _ _ _ ▸ hprog).2.symm⟩
      obtain ⟨h1, h2⟩ := hform
      subst h1; subst h2
      match k with
      | 0 =>
          simp only [List.take_zero, List.foldl_nil, List.get?_cons_zero]
          constructor
          · split <;> simp
          · refine ⟨?_, by omega⟩
            split <;> exact h
      | 1 =>
          simp only [List.take_cons, List.take_zero, List.foldl_cons, List.foldl_nil,
            List.get?_cons_succ, List.get?_cons_zero]
          constructor
          · split <;> simp [applyStep]
          · refine ⟨?_, by omega⟩
            split <;> simp_all [applyStep]
      | (n + 2) =>
          have htake : (List.take (n + 2)
              [SaveStep.writeTemp d, SaveStep.renameTempToTarget])
              = [SaveStep.writeTemp d, SaveStep.renameTempToTarget] := by
            apply List.take_of_length_le; simp
          have hget : (List.get? [SaveStep.writeTemp d, SaveStep.renameTempToTarget]
              (n + 2)) = none := by
            apply List.get?_eq_none.mpr; simp
          simp only [htake, hget, List.foldl_cons, List.foldl_nil]
          have : isWriteStep none = false := rfl
          rw [this]
          simp only [Bool.false_eq_true, and_false, if_false]
          simp [applyStep]

/-! ## Audio supervisor: `src/audio_player.py` -/

/-- The `"data"` field of an mpv IPC response to a `time-pos` query: a
numeric value, or a value that `float()` rejects (the resulting
`ValueError`/`TypeError` is caught inside `get_position`). -/
inductive MpvData where
  | num (q : ℚ)
  | other
deriving DecidableEq, Repr

/-- Outcome of `AudioPlayer._send_command` for one command, as seen by its
caller:
* `none` — the control channel failed (socket error, timeout, malformed
  JSON, or any unexpected error); every such exception is caught inside
  `_send_command`, which returns `None` (after one retry only if the
  process had died);
* `some none` — a response arrived but carries no `"data"` field;
* `some (some d)` — a response with a `"data"` field `d`. -/
def SendResult : Type := Option (Option MpvData)

/-- Embedding of `AudioPlayer.get_position`: `0.0` when no process exists
or the player is idle; otherwise the `time-pos` query's numeric data, with
every failure path — channel failure, missing `"data"`, non-numeric
`"data"` — yielding `0.0`.  The function is total: no exception reaches
the caller. -/
def get_position (has_process : Bool) (is_idle : Bool) (send_result : SendResult) : ℚ :=
  if has_process = false ∨ is_idle = true then 0
  else
    match send_result with
    | some (some (MpvData.num q)) => q
    | some (some MpvData.other) => 0
    | some none => 0
    | none => 0

/-- **C4 counterexample.**  The claim as stated is false on the code: after
a successful query reported position `30`, a control-channel failure
(`_send_command` returning `None`) with the process alive and a file loaded
makes `get_position` return `0.0`, not the last value `30` — the source
keeps no position cache at all. -/
theorem claim_C4_counterexample :
    get_position true false (some (some (MpvData.num 30))) = 30 ∧
    get_position true false none = 0 ∧
    (0 : ℚ) ≠ 30 :=
  ⟨rfl, rfl, by decide⟩

/-- **C4 (amended).**  If a control-channel request fails while the
underlying media process is alive, `AudioPlayer.get_position()` returns
`0.0` (the source keeps no cached position) and never raises: every
channel exception is caught inside `_send_command`/`get_position`, which
is embedded here as a total function. -/
theorem claim_C4_amended :
    get_position true false none = 0 ∧ get_position true true none = 0 :=
  ⟨rfl, rfl⟩

/-! ## Controller: `src/podcast_player.py` -/

/-- Events recording, in order, the state-store calls and audio-process
calls a controller method performs. -/
inductive Event where
  | updatePos (pid : String) (ep_idx : Int) (pos : ℚ)
  | updateMusicPos (mid : String) (track_idx : Nat) (pos : ℚ)
  | resetMusic (mid : String)
  | saveMusic (mid : String) (folder : String) (tracks : List String)
      (track_idx : Nat) (pos : ℚ) (completed : Bool)
  | markMusicCompleted (mid : String)
  | audioPlay (path : String) (startPos : ℚ)
  | audioStop
  | audioPause
deriving DecidableEq, Repr

/-- The `AudioPlayer` fields the controller-visible behaviour depends on
(`self.process` existing, `self.current_file`, `self._is_paused`,
`self._is_idle`). -/
structure AudioState where
  has_process : Bool
  current_file : Option String
  is_paused : Bool
  is_idle : Bool
deriving DecidableEq, Repr

/-- An album record returned by `MusicManager.get_album_for_position`
(keys `folder`, `name`, `path`). -/
structure Album where
  folder : String
  name : String
  path : String
deriving DecidableEq, Repr

/-- The environment a controller call runs in: configuration, path
construction and the filesystem/album lookups performed by
`PodcastManager`/`MusicManager`, plus the current wall-clock ISO timestamp
used for `last_played`. -/
structure Env where
  numPodcasts : Nat
  episodePath : String → String → String
  trackPath : String → String → String
  fileExists : String → Bool
  albumForPosition : Int → Option Album
  scanTracks : String → List String
  now : String

/-- The `PodcastPlayer` instance state relevant to the claims: the owned
document plus the podcast/music/shared session fields set in
`PodcastPlayer.__init__`. -/
structure ControllerState where
  doc : SessionDocument
  current_mode : SwitchState
  current_podcast_index : Option Int
  current_podcast_id : Option String
  current_episode_index : Option Nat
  current_music_id : Option String
  current_music_album_path : Option String
  current_music_tracks : Option (List String)
  current_music_track_index : Option Nat

/-- Python truthiness of the `Optional[int]` selection (`if podcast_index:`
is false for both `None` and `0`). -/
def intOptTruthy : Option Int → Bool
  | some k => decide (k ≠ 0)
  | none => false

/-- Python truthiness of an `Optional[str]` field (`elif
self.current_podcast_id:` is false for `None` and the empty string). -/
def strOptTruthy : Option String → Bool
  | some s => decide (s ≠ "")
  | none => false

/-- Modelled from the spec: `AudioPlayer.is_active` is called by
`PodcastPlayer._save_current_position` but absent from
`src/audio_player.py`; per spec §4.1/§5 the supervisor is *active* when a
session is loaded, i.e. the player is not idle. -/
def audio_is_active (a : AudioState) : Bool := !a.is_idle

/-- Embedding of `AudioPlayer.is_playing`. -/
def audio_is_playing (a : AudioState) : Bool :=
  a.has_process && !a.is_paused && !a.is_idle

/-- Embedding of `PodcastPlayer._save_podcast_position`: store `position`
for the current episode if both podcast id and episode index are set
(`is not None`). -/
def save_podcast_position (env : Env) (cs : ControllerState) (position : ℚ) :
    ControllerState × List Event :=
  match cs.current_podcast_id, cs.current_episode_index with
  | some pid, some i =>
      ({ cs with doc := update_position cs.doc pid (i : Int) position env.now },
        [.updatePos pid (i : Int) position])
  | _, _ => (cs, [])

/-- Embedding of `PodcastPlayer._save_music_position`: store `position`
for the current track if both music id and track index are set. -/
def save_music_position (cs : ControllerState) (position : ℚ) :
    ControllerState × List Event :=
  match cs.current_music_id, cs.current_music_track_index with
  | some mid, some t =>
      ({ cs with doc := update_music_position cs.doc mid t position },
        [.updateMusicPos mid t position])
  | _, _ => (cs, [])

/-- Embedding of `PodcastPlayer._save_position` — the position callback
handed to `AudioPlayer`.  Note the source signature is
`Callable[[float], None]`: the callback receives *only* the sampled
position.  No session identifier is captured when playback starts or passed
with the invocation; routing picks the session from the controller's
*current* mode and ids at delivery time. -/
def save_position (env : Env) (cs : ControllerState) (position : ℚ) :
    ControllerState × List Event :=
  if cs.current_mode = SwitchState.music_mode then save_music_position cs position
  else save_podcast_position env cs position

/-- Embedding of `PodcastPlayer._save_current_position`: if audio is
active, sample the position (`pos` abstracts `audio.get_position()`) and
route it by the *current* mode (music mode → music entry, otherwise — if a
podcast id is set — the podcast entry). -/
def save_current_position (env : Env) (cs : ControllerState) (a : AudioState) (pos : ℚ) :
    ControllerState × List Event :=
  if audio_is_active a = true then
    if cs.current_mode = SwitchState.music_mode then save_music_position cs pos
    else if strOptTruthy cs.current_podcast_id = true then save_podcast_position env cs pos
    else (cs, [])
  else (cs, [])

/-- Embedding of `AudioPlayer.stop`: when a file is loaded (not idle),
flush the sampled position through the position callback (if a file is
current and the position is positive), send `stop`, and become idle and
paused.  `pos` abstracts the `get_position()` sample taken inside `stop`. -/
def audio_stop (env : Env) (cs : ControllerState) (a : AudioState) (pos : ℚ) :
    ControllerState × AudioState × List Event :=
  if a.is_idle = true then (cs, a, [])
  else
    match a.current_file with
    | some _ =>
        if 0 < pos then
          ((save_position env cs pos).1,
            { a with current_file := none, is_paused := true, is_idle := true },
            (save_position env cs pos).2 ++ [.audioStop])
        else
          (cs, { a with current_file := none, is_paused := true, is_idle := true },
            [.audioStop])
    | none =>
        (cs, { a with current_file := none, is_paused := true, is_idle := true },
          [.audioStop])

/-- Embedding of `AudioPlayer.pause`: when a process exists and the player
is neither paused nor idle, flush the sampled position through the callback
(file current and position positive), then set pause over the channel (the
IPC set-pause is assumed answered, so `_is_paused` becomes true). -/
def audio_pause (env : Env) (cs : ControllerState) (a : AudioState) (pos : ℚ) :
    ControllerState × AudioState × List Event :=
  if a.has_process = true ∧ a.is_paused = false ∧ a.is_idle = false then
    match a.current_file with
    | some _ =>
        if 0 < pos then
          ((save_position env cs pos).1, { a with is_paused := true },
            (save_position env cs pos).2 ++ [.audioPause])
        else (cs, { a with is_paused := true }, [.audioPause])
    | none => (cs, { a with is_paused := true }, [.audioPause])
  else (cs, a, [])

/-- Embedding of `AudioPlayer.play`: a missing file leaves the player
unchanged; otherwise the file becomes current, the player leaves
idle/paused state, and the engine loads the file and seeks to
`start_position` (recorded as one `audioPlay` event; the IPC loadfile is
assumed answered). -/
def audio_play (env : Env) (a : AudioState) (path : String) (start_position : ℚ) :
    AudioState × List Event :=
  if env.fileExists path = true then
    ({ a with current_file := some path, is_paused := false, is_idle := false },
      [.audioPlay path start_position])
  else (a, [])

/-- Embedding of `PodcastPlayer.pause`: when audio `is_playing`, save the
current position and pause the player (LED handling is not modelled). -/
def player_pause (env : Env) (cs : ControllerState) (a : AudioState) (pos : ℚ) :
    ControllerState × AudioState × List Event :=
  if audio_is_playing a = true then
    ((audio_pause env (save_current_position env cs a pos).1 a pos).1,
      (audio_pause env (save_current_position env cs a pos).1 a pos).2.1,
      (save_current_position env cs a pos).2 ++
        (audio_pause env (save_current_position env cs a pos).1 a pos).2.2)
  else (cs, a, [])

/-- Embedding of `PodcastPlayer.switch_to_podcast` (lines 143-183): bounds
check on the 1-based index, stop audio, look up (lazily creating) the
podcast entry, bail out on an empty episode list or a missing episode file,
otherwise set the podcast session fields, clear the music session fields,
and play the current episode at `max(0, stored_position - 2)`. -/
def switch_to_podcast (env : Env) (cs : ControllerState) (a : AudioState) (pos : ℚ)
    (podcast_index : Int) : ControllerState × AudioState × List Event :=
  if podcast_index < 1 ∨ (env.numPodcasts : Int) < podcast_index then (cs, a, [])
  else
    let pid := "podcast_" ++ toString podcast_index
    let r1 := audio_stop env cs a pos
    let gp := get_podcast r1.1.doc pid
    let cs2 := { r1.1 with doc := gp.2 }
    if gp.1.episodes = [] then (cs2, r1.2.1, r1.2.2)
    else
      let ep_idx := min gp.1.current_index (gp.1.episodes.length - 1)
      let ep := gp.1.episodes.getD ep_idx default_episode
      let path := env.episodePath pid ep.file
      if env.fileExists path = false then (cs2, r1.2.1, r1.2.2)
      else
        let r2 := audio_play env r1.2.1 path (max 0 (ep.position - 2))
        ({ cs2 with
            current_podcast_id := some pid,
            current_podcast_index := some podcast_index,
            current_episode_index := some ep_idx,
            current_music_id := none,
            current_music_album_path := none,
            current_music_tracks := none,
            current_music_track_index := none },
          r2.1, r1.2.2 ++ r2.2)

/-- The two mutually recursive calls in the music path:
`_play_music_track(track_idx, position)` and `_advance_music_track()`. -/
inductive MusicCall where
  | play (track_idx : Nat) (position : ℚ)
  | advance
deriving DecidableEq, Repr

/-- Embedding of the mutually recursive
`PodcastPlayer._play_music_track` / `_advance_music_track` pair.

`_play_music_track(track_idx, position)`: bail out when no track list is
held or the index is out of bounds; when the track file is missing, *skip*
by calling `_advance_music_track()` (note the source only updates
`self.current_music_track_index` after the existence check, so the skip
advances from the *old* index); otherwise record the index and play at
`max(0, position - 2)` when `position > 0`, else at `0`.

`_advance_music_track()`: bail out when no track list or current index is
held; when `current_index + 1` is out of bounds, mark the album completed,
stop audio (which flushes a positive sampled position through the position
callback) and return; otherwise full-replace the album state for the next
track at position `0` and play it.

`fuel` bounds the skip recursion: the source recurses unboundedly (a
missing file at index `current+1` re-enters `_advance_music_track` with the
index never advancing, until Python's recursion limit); every claim below
stays on paths where the fuel is not exhausted.  `pos` abstracts the
`audio.get_position()` sample used by the stop-flush. -/
def music_run (env : Env) (fuel : Nat) (cs : ControllerState) (a : AudioState) (pos : ℚ) :
    MusicCall → ControllerState × AudioState × List Event
  | .play track_idx position =>
      match fuel with
      | 0 => (cs, a, [])
      | fuel + 1 =>
          match cs.current_music_tracks with
          | none => (cs, a, [])
          | some tracks =>
              if tracks = [] ∨ tracks.length ≤ track_idx then (cs, a, [])
              else
                let path := env.trackPath (cs.current_music_album_path.getD "")
                  (tracks.getD track_idx "")
                if env.fileExists path = false then music_run env fuel cs a pos .advance
                else
                  let r := audio_play env a path
                    (if 0 < position then max 0 (position - 2) else 0)
                  ({ cs with current_music_track_index := some track_idx }, r.1, r.2)
  | .advance =>
      match fuel with
      | 0 => (cs, a, [])
      | fuel + 1 =>
          match cs.current_music_tracks, cs.current_music_track_index with
          | some tracks, some cur =>
              if tracks = [] then (cs, a, [])
              else if tracks.length ≤ cur + 1 then
                let mid := cs.current_music_id.getD ""
                let cs1 := { cs with doc := mark_music_completed cs.doc mid }
                let r := audio_stop env cs1 a pos
                (r.1, r.2.1, [.markMusicCompleted mid] ++ r.2.2)
              else
                let mid := cs.current_music_id.getD ""
                let folder := (get_music cs.doc mid).1.folder
                let cs1 := { cs with
                  doc := save_music (get_music cs.doc mid).2 mid folder tracks (cur + 1) 0 false }
                let r := music_run env fuel cs1 a pos (.play (cur + 1) 0)
                (r.1, r.2.1, [.saveMusic mid folder tracks (cur + 1) 0 false] ++ r.2.2)
          | _, _ => (cs, a, [])

/-- `PodcastPlayer._play_music_track` with enough fuel for every
claim-relevant path. -/
def play_music_track (env : Env) (cs : ControllerState) (a : AudioState) (pos : ℚ)
    (track_idx : Nat) (position : ℚ) : ControllerState × AudioState × List Event :=
  music_run env ((cs.current_music_tracks.getD []).length + 2) cs a pos
    (.play track_idx position)

/-- `PodcastPlayer._advance_music_track` (also reached from
`_on_track_ended`) with enough fuel for every claim-relevant path. -/
def advance_music_track (env : Env) (cs : ControllerState) (a : AudioState) (pos : ℚ) :
    ControllerState × AudioState × List Event :=
  music_run env ((cs.current_music_tracks.getD []).length + 2) cs a pos .advance

/-- The tail of `PodcastPlayer.switch_to_album` (lines 228-252) shared by
its branches: bail out when the track list is empty; clamp an out-of-range
track index to `(0, 0)`; set the music session fields and clear the podcast
session fields; full-replace the album state (`completed=False`); play the
track.  `evs` carries the events of the earlier part of the call. -/
def switch_album_tail (env : Env) (cs : ControllerState) (a : AudioState) (pos : ℚ)
    (mid : String) (album : Album) (tracks : List String) (track_idx : Nat)
    (position : ℚ) (evs : List Event) : ControllerState × AudioState × List Event :=
  if tracks = [] then (cs, a, evs)
  else
    let tidx := if tracks.length ≤ track_idx then 0 else track_idx
    let posn := if tracks.length ≤ track_idx then 0 else position
    let cs1 := { cs with
      current_music_id := some mid,
      current_music_album_path := some album.path,
      current_music_tracks := some tracks,
      current_music_track_index := some tidx,
      current_podcast_id := none,
      current_episode_index := none }
    let cs2 := { cs1 with doc := save_music cs1.doc mid album.folder tracks tidx posn false }
    let r := play_music_track env cs2 a pos tidx posn
    (r.1, r.2.1, evs ++ [.saveMusic mid album.folder tracks tidx posn false] ++ r.2.2)

/-- Embedding of `PodcastPlayer.switch_to_album` (lines 187-252): look up
the album for the knob position (none → stop audio and bail out); save the
current position and stop audio; read (lazily creating) the stored album
state; resume from the stored `(tracks, current_track, position)` when the
state is not completed and the folder mapping is unchanged (falling back to
a fresh scan when the stored track list is empty); otherwise start fresh —
explicitly resetting the stored state first when it was completed — with a
scanned track list at track 0, position 0; then the common tail. -/
def switch_to_album (env : Env) (cs : ControllerState) (a : AudioState) (pos : ℚ)
    (knob : Int) : ControllerState × AudioState × List Event :=
  match env.albumForPosition knob with
  | none =>
      let r := audio_stop env cs a pos
      (r.1, r.2.1, r.2.2)
  | some album =>
      let mid := "music_" ++ toString knob
      let r1 := save_current_position env cs a pos
      let r2 := audio_stop env r1.1 a pos
      let gm := get_music r2.1.doc mid
      let saved := gm.1
      let cs3 := { r2.1 with doc := gm.2 }
      let evs := r1.2 ++ r2.2.2
      if saved.completed = false ∧ saved.folder = album.folder then
        if saved.tracks = [] then
          switch_album_tail env cs3 r2.2.1 pos mid album (env.scanTracks album.path) 0 0 evs
        else
          switch_album_tail env cs3 r2.2.1 pos mid album saved.tracks saved.current_track
            saved.position evs
      else
        if saved.completed = true then
          switch_album_tail env { cs3 with doc := reset_music cs3.doc mid } r2.2.1 pos mid
            album (env.scanTracks album.path) 0 0 (evs ++ [.resetMusic mid])
        else
          switch_album_tail env cs3 r2.2.1 pos mid album (env.scanTracks album.path) 0 0 evs

/-- Embedding of `PodcastPlayer.handle_switch_change` (lines 318-355).  On
a mode change: save the current position (routed under the *old* mode),
record the new mode, then pause (→ Paused) or stop-and-load the selected
podcast/album (→ Playing / MusicMode; skipped when the selection is falsy).
With the mode unchanged, on a truthy changed selection: record it and
switch the podcast/album when playing / in music mode (nothing otherwise).
-/
def handle_switch_change (env : Env) (cs : ControllerState) (a : AudioState) (pos : ℚ)
    (state : SwitchState) (podcast_index : Option Int) :
    ControllerState × AudioState × List Event :=
  if state ≠ cs.current_mode then
    let r1 := save_current_position env cs a pos
    let cs1 := { r1.1 with current_mode := state }
    match state with
    | .paused =>
        let r2 := player_pause env cs1 a pos
        (r2.1, r2.2.1, r1.2 ++ r2.2.2)
    | .playing =>
        let r2 := audio_stop env cs1 a pos
        if intOptTruthy podcast_index = true then
          let r3 := switch_to_podcast env r2.1 r2.2.1 pos (podcast_index.getD 0)
          (r3.1, r3.2.1, r1.2 ++ r2.2.2 ++ r3.2.2)
        else (r2.1, r2.2.1, r1.2 ++ r2.2.2)
    | .music_mode =>
        let r2 := audio_stop env cs1 a pos
        if intOptTruthy podcast_index = true then
          let r3 := switch_to_album env r2.1 r2.2.1 pos (podcast_index.getD 0)
          (r3.1, r3.2.1, r1.2 ++ r2.2.2 ++ r3.2.2)
        else (r2.1, r2.2.1, r1.2 ++ r2.2.2)
    | .podcast_select => (cs1, a, r1.2)
  else
    if podcast_index ≠ cs.current_podcast_index ∧ intOptTruthy podcast_index = true then
      let cs1 := { cs with current_podcast_index := podcast_index }
      match cs.current_mode with
      | .playing => switch_to_podcast env cs1 a pos (podcast_index.getD 0)
      | .music_mode => switch_to_album env cs1 a pos (podcast_index.getD 0)
      | _ => (cs1, a, [])
    else (cs, a, [])

/-- Embedding of the end-of-track check in `PodcastPlayer.run` (lines
379-381): each tick, if in music mode and the supervisor reports
end-of-media, `_on_track_ended` advances the track.  `has_ended` —
Modelled from the spec: `AudioPlayer.has_ended` is "edge-triggered,
consume-once" (spec §4.1) and absent from `src/audio_player.py`; its value
for this tick is taken as an input. -/
def run_music_tick (env : Env) (cs : ControllerState) (a : AudioState) (pos : ℚ)
    (has_ended : Bool) : ControllerState × AudioState × List Event :=
  if cs.current_mode = SwitchState.music_mode ∧ has_ended = true then
    advance_music_track env cs a pos
  else (cs, a, [])

/-! ## Claim theorems over the controller -/

theorem save_current_position_podcast (env : Env) (cs : ControllerState) (a : AudioState)
    (pos : ℚ) (pid : String) (i : Nat)
    (hmode : cs.current_mode ≠ SwitchState.music_mode) (ha : a.is_idle = false)
    (hpid : cs.current_podcast_id = some pid) (hpne : pid ≠ "")
    (hi : cs.current_episode_index = some i) :
    (save_current_position env cs a pos).2 = [Event.updatePos pid (i : Int) pos] := by
  unfold save_current_position audio_is_active
  rw [ha]
  simp only [Bool.not_false, if_pos rfl]
  rw [if_neg hmode, hpid]
  have ht : strOptTruthy (some pid) = true := by
    unfold strOptTruthy; exact decide_eq_true hpne
  rw [if_pos ht]
  unfold save_podcast_position
  rw [hpid, hi]
  simp

theorem save_current_position_music (env : Env) (cs : ControllerState) (a : AudioState)
    (pos : ℚ) (mid : String) (t : Nat)
    (hmode : cs.current_mode = SwitchState.music_mode) (ha : a.is_idle = false)
    (hmid : cs.current_music_id = some mid)
    (ht : cs.current_music_track_index = some t) :
    (save_current_position env cs a pos).2 = [Event.updateMusicPos mid t pos] := by
  unfold save_current_position audio_is_active
  rw [ha]
  simp only [Bool.not_false, if_pos rfl]
  rw [if_pos hmode]
  unfold save_music_position
  rw [hmid, ht]
  simp

/-- **C9 (confirmed).**  Whenever `handle_switch_change` processes a mode
change away from Playing or MusicMode, the very first state-store or audio
call it performs is the flush of the sampled position `pos` of the
previously active session, routed to that session under the *old* mode
(`update_position` on the old podcast session, `update_music_position` on
the old music session) — before the pause takes effect or any new session
is loaded. -/
theorem claim_C9 (env : Env) (cs : ControllerState) (a : AudioState) (pos : ℚ)
    (newMode : SwitchState) (sel : Option Int)
    (hch : newMode ≠ cs.current_mode) (ha : a.is_idle = false) :
    (cs.current_mode = SwitchState.playing →
      ∀ pid i, cs.current_podcast_id = some pid → pid ≠ "" →
        cs.current_episode_index = some i →
        (handle_switch_change env cs a pos newMode sel).2.2.head?
          = some (Event.updatePos pid (i : Int) pos)) ∧
    (cs.current_mode = SwitchState.music_mode →
      ∀ mid t, cs.current_music_id = some mid → cs.current_music_track_index = some t →
        (handle_switch_change env cs a pos newMode sel).2.2.head?
          = some (Event.updateMusicPos mid t pos)) := by
  constructor
  · intro hold pid i hpid hpne hi
    have hflush := save_current_position_podcast env cs a pos pid i
      (by rw [hold]; decide) ha hpid hpne hi
    unfold handle_switch_change
    rw [if_pos hch]
    cases newMode with
    | podcast_select => simp [hflush]
    | paused => simp [hflush]
    | playing => exact absurd hold.symm hch
    | music_mode =>
        dsimp only
        split
        · simp [hflush]
        · simp [hflush]
  · intro hold mid t hmid ht
    have hflush := save_current_position_music env cs a pos mid t hold ha hmid ht
    unfold handle_switch_change
    rw [if_pos hch]
    cases newMode with
    | podcast_select => simp [hflush]
    | paused => simp [hflush]
    | music_mode => exact absurd hold.symm hch
    | playing =>
        dsimp only
        split
        · simp [hflush]
        · simp [hflush]

/-- **C6 (confirmed).**  Whenever `switch_to_podcast` reaches playback (a
valid 1-based selection, a non-empty stored episode list, and an existing
episode file), it starts the audio engine on the current episode at exactly
`max(0, stored_position - 2)` — the rewind buffer is the literal constant
`2` seconds in the source — and records the selected session. -/
theorem claim_C6 (env : Env) (cs : ControllerState) (a : AudioState) (pos : ℚ)
    (k : Int) (ps : PodcastState) (ep : Episode)
    (hk1 : 1 ≤ k) (hk2 : k ≤ (env.numPodcasts : Int))
    (hps : (get_podcast (audio_stop env cs a pos).1.doc ("podcast_" ++ toString k)).1 = ps)
    (hne : ps.episodes ≠ [])
    (hep : ps.episodes.getD (min ps.current_index (ps.episodes.length - 1)) default_episode = ep)
    (hex : env.fileExists (env.episodePath ("podcast_" ++ toString k) ep.file) = true) :
    (switch_to_podcast env cs a pos k).2.2
      = (audio_stop env cs a pos).2.2
        ++ [Event.audioPlay (env.episodePath ("podcast_" ++ toString k) ep.file)
            (max 0 (ep.position - 2))] ∧
    (switch_to_podcast env cs a pos k).1.current_podcast_id
      = some ("podcast_" ++ toString k) ∧
    (switch_to_podcast env cs a pos k).1.current_episode_index
      = some (min ps.current_index (ps.episodes.length - 1)) := by
  have hcond : ¬ (k < 1 ∨ (env.numPodcasts : Int) < k) := by omega
  have hex' : ¬ (env.fileExists (env.episodePath ("podcast_" ++ toString k) ep.file) = false) := by
    rw [hex]; decide
  simp only [switch_to_podcast]
  rw [if_neg hcond, hps, if_neg hne, hep, if_neg hex']
  simp only [audio_play]
  rw [if_pos hex]
  refine ⟨?_, ?_, ?_⟩ <;> trivial

/-- `max(0, 30 - 2) = 28` over `ℚ` — the rewind-buffer arithmetic of the
spec's resume scenario. -/
theorem rewind_buffer_30 : max (0 : ℚ) (30 - 2) = 28 := by norm_num

/-- A stored episode at position 30 seconds (file `a.mp3`). -/
def ep30 : Episode :=
  { guid := "g1", title := "E1", file := "a.mp3", position := 30, completed := false,
    last_played := none }

/-- A stored episode at position 0 (file `b.mp3`). -/
def ep0 : Episode :=
  { guid := "g2", title := "E2", file := "b.mp3", position := 0, completed := false,
    last_played := none }

/-- A demo environment: two configured podcasts, knob position 2 mapped to
an album, every file present. -/
def demoEnv : Env :=
  { numPodcasts := 2,
    episodePath := fun pid file => pid ++ "/" ++ file,
    trackPath := fun p f => p ++ "/" ++ f,
    fileExists := fun _ => true,
    albumForPosition := fun k =>
      if k = 2 then some { folder := "albB", name := "B", path := "music/albB" } else none,
    scanTracks := fun _ => ["t1.mp3", "t2.mp3"],
    now := "ts" }

/-- A demo document: podcast 1 at stored position 30, podcast 2 at stored
position 0, and a *completed* album state for knob position 2. -/
def demoDoc : SessionDocument :=
  { podcasts := fun k =>
      if k = "podcast_1" then some { episodes := [ep30], current_index := 0, total_time := 0 }
      else if k = "podcast_2" then some { episodes := [ep0], current_index := 0, total_time := 0 }
      else none,
    music := fun k =>
      if k = "music_2" then
        some { folder := "albB", tracks := ["t1.mp3", "t2.mp3"], current_track := 1,
               position := 50, completed := true }
      else none }

/-- Controller state paused with no active session, over `demoDoc`. -/
def csPausedNone : ControllerState :=
  { doc := demoDoc, current_mode := .paused, current_podcast_index := some 1,
    current_podcast_id := none, current_episode_index := none,
    current_music_id := none, current_music_album_path := none,
    current_music_tracks := none, current_music_track_index := none }

/-- An idle audio player (process alive, nothing loaded). -/
def aIdle : AudioState :=
  { has_process := true, current_file := none, is_paused := true, is_idle := true }

/-- Witness for C6 — the spec's scenario: podcast 1 with one episode at
stored position 30 s and rewind buffer 2 starts playback at 28 s. -/
theorem claim_C6_witness :
    ((1 : Int) ≤ 1 ∧ (1 : Int) ≤ (demoEnv.numPodcasts : Int) ∧
      (get_podcast (audio_stop demoEnv csPausedNone aIdle 0).1.doc
          ("podcast_" ++ toString (1 : Int))).1
        = { episodes := [ep30], current_index := 0, total_time := 0 } ∧
      ([ep30] : List Episode) ≠ [] ∧
      demoEnv.fileExists (demoEnv.episodePath ("podcast_" ++ toString (1 : Int)) ep30.file)
        = true) ∧
    (switch_to_podcast demoEnv csPausedNone aIdle 0 1).2.2
      = (audio_stop demoEnv csPausedNone aIdle 0).2.2
        ++ [Event.audioPlay (demoEnv.episodePath ("podcast_" ++ toString (1 : Int)) ep30.file)
            28] :=
  ⟨⟨by decide, by decide, rfl, by decide, rfl⟩,
    by
      have h := (claim_C6 demoEnv csPausedNone aIdle 0 1
        { episodes := [ep30], current_index := 0, total_time := 0 } ep30
        (by decide) (by decide) rfl (by decide) rfl rfl).1
      simpa [ep30, rewind_buffer_30] using h⟩

theorem save_podcast_position_no_play (env : Env) (cs : ControllerState) (pos : ℚ)
    (p : String) (q : ℚ) : Event.audioPlay p q ∉ (save_podcast_position env cs pos).2 := by
  unfold save_podcast_position
  cases cs.current_podcast_id <;> cases cs.current_episode_index <;> simp

theorem save_music_position_no_play (cs : ControllerState) (pos : ℚ)
    (p : String) (q : ℚ) : Event.audioPlay p q ∉ (save_music_position cs pos).2 := by
  unfold save_music_position
  cases cs.current_music_id <;> cases cs.current_music_track_index <;> simp

theorem save_position_no_play (env : Env) (cs : ControllerState) (pos : ℚ)
    (p : String) (q : ℚ) : Event.audioPlay p q ∉ (save_position env cs pos).2 := by
  unfold save_position
  split
  · exact save_music_position_no_play cs pos p q
  · exact save_podcast_position_no_play env cs pos p q

theorem save_current_position_no_play (env : Env) (cs : ControllerState) (a : AudioState)
    (pos : ℚ) (p : String) (q : ℚ) :
    Event.audioPlay p q ∉ (save_current_position env cs a pos).2 := by
  unfold save_current_position
  split
  · split
    · exact save_music_position_no_play cs pos p q
    · split
      · exact save_podcast_position_no_play env cs pos p q
      · simp
  · simp

theorem audio_stop_no_play (env : Env) (cs : ControllerState) (a : AudioState)
    (pos : ℚ) (p : String) (q : ℚ) :
    Event.audioPlay p q ∉ (audio_stop env cs a pos).2.2 := by
  unfold audio_stop
  split
  · simp
  · split
    · split
      · intro hmem
        rcases List.mem_append.mp hmem with hmem | hmem
        · exact save_position_no_play env cs pos p q hmem
        · simp at hmem
      · simp
    · simp

/-- **C7 (confirmed, over the spec-modelled store).**  Loading an album
whose persisted state is marked `completed` (with a mapped album, a
non-empty scanned track list and an existing first-track file) makes
`switch_to_album` *first* explicitly reset the stored state — the event
trace is exactly the position-flush events (which contain no play), then
`reset_music`, then the full-replace `save_music` at track 0 / position 0,
then the play of track 0 at start position 0 — never mid-track; the
resulting stored album state is the fresh one. -/
theorem claim_C7 (env : Env) (cs : ControllerState) (a : AudioState) (pos : ℚ)
    (knob : Int) (album : Album) (tracks : List String)
    (halb : env.albumForPosition knob = some album)
    (hcomp : (get_music (audio_stop env (save_current_position env cs a pos).1 a pos).1.doc
      ("music_" ++ toString knob)).1.completed = true)
    (htr : env.scanTracks album.path = tracks)
    (hne : tracks ≠ [])
    (hex : env.fileExists (env.trackPath album.path (tracks.getD 0 "")) = true) :
    (switch_to_album env cs a pos knob).2.2
      = ((save_current_position env cs a pos).2
          ++ (audio_stop env (save_current_position env cs a pos).1 a pos).2.2)
        ++ [Event.resetMusic ("music_" ++ toString knob),
            Event.saveMusic ("music_" ++ toString knob) album.folder tracks 0 0 false,
            Event.audioPlay (env.trackPath album.path (tracks.getD 0 "")) 0] ∧
    (∀ p q, Event.audioPlay p q ∉ (save_current_position env cs a pos).2
        ++ (audio_stop env (save_current_position env cs a pos).1 a pos).2.2) ∧
    (switch_to_album env cs a pos knob).1.doc.music ("music_" ++ toString knob)
      = some { folder := album.folder, tracks := tracks, current_track := 0,
               position := 0, completed := false } ∧
    (switch_to_album env cs a pos knob).1.current_music_track_index = some 0 := by
  have hlen : ¬ (tracks.length ≤ 0) := by
    cases tracks with
    | nil => exact absurd rfl hne
    | cons x xs => simp
  have hor : ¬ (tracks = [] ∨ tracks.length ≤ 0) := by
    rintro (hc | hc)
    · exact hne hc
    · exact hlen hc
  have hc1 : ¬ ((get_music (audio_stop env (save_current_position env cs a pos).1 a pos).1.doc
      ("music_" ++ toString knob)).1.completed = false ∧
      (get_music (audio_stop env (save_current_position env cs a pos).1 a pos).1.doc
        ("music_" ++ toString knob)).1.folder = album.folder) := by
    rw [hcomp]; simp
  have hex' : ¬ (env.fileExists (env.trackPath album.path (tracks.getD 0 "")) = false) := by
    rw [hex]; decide
  refine ⟨?_, ?_, ?_, ?_⟩
  case refine_2 =>
    intro p q hmem
    rcases List.mem_append.mp hmem with hmem | hmem
    · exact save_current_position_no_play env cs a pos p q hmem
    · exact audio_stop_no_play env (save_current_position env cs a pos).1 a pos p q hmem
  all_goals
    simp only [switch_to_album]
    rw [halb]
    dsimp only
    rw [if_neg hc1, if_pos hcomp, htr]
    simp only [switch_album_tail]
    rw [if_neg hne]
    try rw [if_neg hlen]
    try simp only [play_music_track, music_run, Option.getD_some]
    try rw [if_neg hor]
    try rw [if_neg hex']
    try simp only [audio_play]
    try rw [if_pos hex]
    try simp [save_music, set_music]

/-- `AudioPlayer.stop` with a non-positive position sample performs no
callback flush: the controller state is unchanged and the player ends
idle. -/
theorem audio_stop_no_flush (env : Env) (cs : ControllerState) (a : AudioState)
    (pos : ℚ) (hgate : ¬ 0 < pos) :
    (audio_stop env cs a pos).1 = cs ∧ (audio_stop env cs a pos).2.1.is_idle = true := by
  unfold audio_stop
  split
  · rename_i h; exact ⟨rfl, h⟩
  · split <;> exact ⟨rfl, rfl⟩

/-- The position callback (`_save_position`) only writes to the document:
the controller's knob selection is untouched. -/
theorem save_position_podcast_index (env : Env) (cs : ControllerState) (pos : ℚ) :
    (save_position env cs pos).1.current_podcast_index = cs.current_podcast_index := by
  unfold save_position save_music_position save_podcast_position
  split
  · cases cs.current_music_id <;> cases cs.current_music_track_index <;> rfl
  · cases cs.current_podcast_id <;> cases cs.current_episode_index <;> rfl

/-- After `AudioPlayer.stop` the player is idle, whatever the sample. -/
theorem audio_stop_is_idle (env : Env) (cs : ControllerState) (a : AudioState)
    (pos : ℚ) : (audio_stop env cs a pos).2.1.is_idle = true := by
  unfold audio_stop
  split
  · rename_i h; exact h
  · split
    · split <;> rfl
    · rfl

/-- `AudioPlayer.stop` never touches the controller's knob selection. -/
theorem audio_stop_podcast_index (env : Env) (cs : ControllerState) (a : AudioState)
    (pos : ℚ) :
    (audio_stop env cs a pos).1.current_podcast_index = cs.current_podcast_index := by
  unfold audio_stop
  split
  · rfl
  · split
    · split
      · exact save_position_podcast_index env cs pos
      · rfl
    · rfl

/-- `AudioPlayer.stop` with a loaded file, a non-idle player and a positive
position sample flushes the sample through the callback: in music mode the
document receives `update_music_position` for the current track. -/
theorem audio_stop_flush_music (env : Env) (cs : ControllerState) (a : AudioState)
    (pos : ℚ) (mid : String) (cur : Nat)
    (hmode : cs.current_mode = SwitchState.music_mode)
    (hmid : cs.current_music_id = some mid)
    (hcur : cs.current_music_track_index = some cur)
    (hpos : 0 < pos) (hidle : a.is_idle = false)
    (hfile : a.current_file.isSome = true) :
    (audio_stop env cs a pos).1.doc = update_music_position cs.doc mid cur pos := by
  obtain ⟨f, hf⟩ := Option.isSome_iff_exists.mp hfile
  have hni : ¬ (a.is_idle = true) := by rw [hidle]; decide
  unfold audio_stop
  rw [if_neg hni, hf]
  dsimp only
  rw [if_pos hpos]
  unfold save_position
  rw [if_pos hmode]
  unfold save_music_position
  rw [hmid, hcur]

/-- A five-track album state at the last track (index 4). -/
def docMusic5 : SessionDocument :=
  { podcasts := fun _ => none,
    music := fun k =>
      if k = "m5" then
        some { folder := "A", tracks := ["1.mp3", "2.mp3", "3.mp3", "4.mp3", "5.mp3"],
               current_track := 4, position := 100, completed := false }
      else none }

/-- Controller state in music mode playing track 5 of 5 of album `m5`. -/
def csMusic5 : ControllerState :=
  { doc := docMusic5, current_mode := .music_mode, current_podcast_index := some 3,
    current_podcast_id := none, current_episode_index := none,
    current_music_id := some "m5", current_music_album_path := some "music/A",
    current_music_tracks := some ["1.mp3", "2.mp3", "3.mp3", "4.mp3", "5.mp3"],
    current_music_track_index := some 4 }

/-- An audio player with the last track loaded and playing. -/
def aPlayingTrack5 : AudioState :=
  { has_process := true, current_file := some "music/A/5.mp3", is_paused := false,
    is_idle := false }

/-- **C8 counterexample.**  The claim as stated is false on the code: with
end-of-media firing on the last track (five tracks, index 4) while the
engine still reports position `50`, the tick marks the album completed and
then `AudioPlayer.stop`'s flush (the source runs `mark_music_completed`
*before* `audio.stop()`) overwrites the just-reset fields through the
position callback: the persisted state ends as
`{completed: true, currentTrack: 4, position: 50}`, not the claimed
`{completed: true, currentTrack: 0, position: 0}`. -/
theorem claim_C8_counterexample :
    (run_music_tick demoEnv csMusic5 aPlayingTrack5 50 true).1.doc.music "m5"
      = some { folder := "A", tracks := ["1.mp3", "2.mp3", "3.mp3", "4.mp3", "5.mp3"],
               current_track := 4, position := 50, completed := true } ∧
    (run_music_tick demoEnv csMusic5 aPlayingTrack5 50 true).1.doc.music "m5"
      ≠ some { folder := "A", tracks := ["1.mp3", "2.mp3", "3.mp3", "4.mp3", "5.mp3"],
               current_track := 0, position := 0, completed := true } :=
  ⟨by decide, by decide⟩

/-- **C8 (amended, over the spec-modelled store).**  In MusicMode, when
the end-of-media notification fires while the current track is the last
one (`current_track + 1` out of bounds), the control-loop tick stops
playback (the player ends idle), leaves the knob selection unchanged, and
its first store call is `mark_music_completed` (so `completed` becomes
true).  The persisted album state becomes
`{completed: true, currentTrack: 0, position: 0}` exactly when the position
sample taken by `AudioPlayer.stop`'s flush is not positive; when the sample
is positive (player not idle, a file loaded), the flush — which the source
runs *after* `mark_music_completed` — overwrites the just-reset fields,
leaving `{completed: true, currentTrack: current, position: sample}`. -/
theorem claim_C8_amended (env : Env) (cs : ControllerState) (a : AudioState) (pos : ℚ)
    (tracks : List String) (mid : String) (cur : Nat)
    (hmode : cs.current_mode = SwitchState.music_mode)
    (htracks : cs.current_music_tracks = some tracks)
    (hne : tracks ≠ [])
    (hcur : cs.current_music_track_index = some cur)
    (hout : tracks.length ≤ cur + 1)
    (hmid : cs.current_music_id = some mid) :
    (run_music_tick env cs a pos true).2.1.is_idle = true ∧
    (run_music_tick env cs a pos true).1.current_podcast_index
      = cs.current_podcast_index ∧
    (run_music_tick env cs a pos true).2.2.head?
      = some (Event.markMusicCompleted mid) ∧
    (¬ 0 < pos →
      (run_music_tick env cs a pos true).1.doc.music mid
        = some { (get_music cs.doc mid).1 with
            completed := true, current_track := 0, position := 0 }) ∧
    (0 < pos → a.is_idle = false → a.current_file.isSome = true →
      (run_music_tick env cs a pos true).1.doc.music mid
        = some { (get_music cs.doc mid).1 with
            completed := true, current_track := cur, position := pos }) := by
  unfold run_music_tick
  rw [if_pos (⟨hmode, rfl⟩ : cs.current_mode = SwitchState.music_mode ∧ true = true)]
  unfold advance_music_track
  rw [htracks]
  simp only [Option.getD_some, music_run]
  rw [htracks, hcur]
  dsimp only
  rw [if_neg hne, if_pos hout, hmid]
  simp only [Option.getD_some]
  refine ⟨?_, ?_, ?_, ?_, ?_⟩
  · exact audio_stop_is_idle env _ a pos
  · exact audio_stop_podcast_index env _ a pos
  · simp
  · intro hgate
    rw [(audio_stop_no_flush env _ a pos hgate).1]
    simp [mark_music_completed, set_music]
  · intro hp hidle hfile
    have hflush := audio_stop_flush_music env
      ({ cs with
          doc := mark_music_completed cs.doc mid,
          current_music_id := some mid,
          current_music_tracks := some tracks,
          current_music_track_index := some cur })
      a pos mid cur hmode rfl rfl hp hidle hfile
    rw [hflush]
    simp [update_music_position, mark_music_completed, get_music, set_music]

/-- Witness for C8 (amended) — the spec's scenario with a non-positive
end-of-media sample: a five-track album on track 5 (index 4), end-of-media
fires with sample 0, the album state becomes
`{completed: true, currentTrack: 0, position: 0}`, playback stops, the
selection (knob position 3) is unchanged. -/
theorem claim_C8_amended_witness :
    (csMusic5.current_mode = SwitchState.music_mode ∧
      csMusic5.current_music_tracks
        = some ["1.mp3", "2.mp3", "3.mp3", "4.mp3", "5.mp3"] ∧
      (["1.mp3", "2.mp3", "3.mp3", "4.mp3", "5.mp3"] : List String) ≠ [] ∧
      csMusic5.current_music_track_index = some 4 ∧
      (["1.mp3", "2.mp3", "3.mp3", "4.mp3", "5.mp3"] : List String).length ≤ 4 + 1 ∧
      csMusic5.current_music_id = some "m5" ∧ ¬ (0 : ℚ) < 0) ∧
    ((run_music_tick demoEnv csMusic5 aPlayingTrack5 0 true).2.1.is_idle = true ∧
     (run_music_tick demoEnv csMusic5 aPlayingTrack5 0 true).1.current_podcast_index
      = some 3 ∧
     (run_music_tick demoEnv csMusic5 aPlayingTrack5 0 true).2.2.head?
      = some (Event.markMusicCompleted "m5") ∧
     (run_music_tick demoEnv csMusic5 aPlayingTrack5 0 true).1.doc.music "m5"
      = some { folder := "A", tracks := ["1.mp3", "2.mp3", "3.mp3", "4.mp3", "5.mp3"],
               current_track := 0, position := 0, completed := true }) :=
  ⟨⟨rfl, rfl, by decide, rfl, by decide, rfl, by decide⟩,
    by
      have h := claim_C8_amended demoEnv csMusic5 aPlayingTrack5 0
        ["1.mp3", "2.mp3", "3.mp3", "4.mp3", "5.mp3"] "m5" 4
        rfl rfl (by decide) rfl (by decide) rfl
      exact ⟨h.1, h.2.1, h.2.2.1, h.2.2.2.1 (by decide)⟩⟩

/-- The empty persisted document. -/
def emptyDoc : SessionDocument := { podcasts := fun _ => none, music := fun _ => none }

/-- A state file holding a previously persisted (complete) document, with
no temp file. -/
def fsDemo : FsState := { target := some (.complete emptyDoc), temp := none }

/-- Witness for C5: a forced save of a document over an existing state
file, run to completion (`k = 2`), leaves the complete new document at the
target; the theorem's remaining conjuncts hold at the same input. -/
theorem claim_C5_witness :
    (fsDemo.target ≠ some FileContent.part) ∧
    (((run_save fsDemo true 0 emptyDoc 2 false).target = fsDemo.target ∨
      (run_save fsDemo true 0 emptyDoc 2 false).target
        = some (FileContent.complete emptyDoc)) ∧
     (run_save fsDemo true 0 emptyDoc 2 false).target ≠ some FileContent.part ∧
     (2 ≤ 2 → save_program true 0 emptyDoc ≠ [] →
       (run_save fsDemo true 0 emptyDoc 2 false).target
        = some (FileContent.complete emptyDoc))) :=
  ⟨fun h => FileContent.noConfusion (Option.some.inj h),
    claim_C5 fsDemo true 0 emptyDoc 2 false
      (fun h => FileContent.noConfusion (Option.some.inj h))⟩

/-- Witness for C7: knob position 2 maps to album `albB`, whose stored
state in `demoDoc` is completed; loading it resets the stored state, saves
the fresh state, and plays track 0 at position 0. -/
theorem claim_C7_witness :
    (demoEnv.albumForPosition 2 = some { folder := "albB", name := "B", path := "music/albB" } ∧
      (get_music (audio_stop demoEnv (save_current_position demoEnv csPausedNone aIdle 0).1
          aIdle 0).1.doc ("music_" ++ toString (2 : Int))).1.completed = true ∧
      demoEnv.scanTracks "music/albB" = ["t1.mp3", "t2.mp3"] ∧
      (["t1.mp3", "t2.mp3"] : List String) ≠ [] ∧
      demoEnv.fileExists (demoEnv.trackPath "music/albB"
        ((["t1.mp3", "t2.mp3"] : List String).getD 0 "")) = true) ∧
    ((switch_to_album demoEnv csPausedNone aIdle 0 2).2.2
      = ((save_current_position demoEnv csPausedNone aIdle 0).2
          ++ (audio_stop demoEnv (save_current_position demoEnv csPausedNone aIdle 0).1
              aIdle 0).2.2)
        ++ [Event.resetMusic ("music_" ++ toString (2 : Int)),
            Event.saveMusic ("music_" ++ toString (2 : Int)) "albB" ["t1.mp3", "t2.mp3"] 0 0 false,
            Event.audioPlay (demoEnv.trackPath "music/albB"
              ((["t1.mp3", "t2.mp3"] : List String).getD 0 "")) 0] ∧
     (∀ p q, Event.audioPlay p q ∉ (save_current_position demoEnv csPausedNone aIdle 0).2
        ++ (audio_stop demoEnv (save_current_position demoEnv csPausedNone aIdle 0).1
            aIdle 0).2.2) ∧
     (switch_to_album demoEnv csPausedNone aIdle 0 2).1.doc.music ("music_" ++ toString (2 : Int))
      = some { folder := "albB", tracks := ["t1.mp3", "t2.mp3"], current_track := 0,
               position := 0, completed := false } ∧
     (switch_to_album demoEnv csPausedNone aIdle 0 2).1.current_music_track_index = some 0) :=
  ⟨⟨rfl, rfl, rfl, by decide, rfl⟩,
    claim_C7 demoEnv csPausedNone aIdle 0 2
      { folder := "albB", name := "B", path := "music/albB" } ["t1.mp3", "t2.mp3"]
      rfl rfl rfl (by decide) rfl⟩

/-- Controller state actively playing podcast 1, episode 0, over
`demoDoc`. -/
def csPlayingP1 : ControllerState :=
  { doc := demoDoc, current_mode := .playing, current_podcast_index := some 1,
    current_podcast_id := some "podcast_1", current_episode_index := some 0,
    current_music_id := none, current_music_album_path := none,
    current_music_tracks := none, current_music_track_index := none }

/-- An audio player with podcast 1's episode loaded and playing. -/
def aActive : AudioState :=
  { has_process := true, current_file := some "podcast_1/a.mp3", is_paused := false,
    is_idle := false }

/-- Witness for C9: playing podcast 1 (episode 0), the mode switches to
Paused with position sample 42; the first recorded call of
`handle_switch_change` is the flush `update_position("podcast_1", 0, 42)`. -/
theorem claim_C9_witness :
    ((SwitchState.paused ≠ csPlayingP1.current_mode) ∧ aActive.is_idle = false ∧
      csPlayingP1.current_mode = SwitchState.playing ∧
      csPlayingP1.current_podcast_id = some "podcast_1" ∧ "podcast_1" ≠ "" ∧
      csPlayingP1.current_episode_index = some 0) ∧
    (handle_switch_change demoEnv csPlayingP1 aActive 42 SwitchState.paused (some 1)).2.2.head?
      = some (Event.updatePos "podcast_1" ((0 : Nat) : Int) 42) :=
  ⟨⟨by decide, rfl, rfl, rfl, by decide, rfl⟩,
    (claim_C9 demoEnv csPlayingP1 aActive 42 SwitchState.paused (some 1)
      (by decide) rfl).1 rfl "podcast_1" 0 rfl (by decide) rfl⟩

/-- **C3 (code bug, demonstrated).**  The source does *not* implement the
claimed mechanism: `AudioPlayer`'s position callback has type
`Callable[[float], None]` (see `save_position` above) — no session
identifier is captured when playback starts or passed with the invocation,
and `PodcastPlayer._save_position` routes by the controller's *current*
mode and session ids at delivery time.  Consequently a stale sampler
callback delivered after a fast session switch writes its position into the
wrong session: here, position `30` sampled while `podcast_1` was playing is
delivered after the switch to `podcast_2` and lands in `podcast_2`'s
episode entry (whose stored position was `0`), while `podcast_1`'s entry is
untouched. -/
theorem claim_C3_code_bug :
    (save_position demoEnv (switch_to_podcast demoEnv csPlayingP1 aActive 0 2).1
        30).1.doc.podcasts "podcast_2"
      = some { episodes := [{ ep0 with position := 30, last_played := some "ts" }],
               current_index := 0, total_time := 1 } ∧
    (save_position demoEnv (switch_to_podcast demoEnv csPlayingP1 aActive 0 2).1
        30).1.doc.podcasts "podcast_1"
      = some { episodes := [ep30], current_index := 0, total_time := 0 } ∧
    (switch_to_podcast demoEnv csPlayingP1 aActive 0 2).1.current_podcast_id
      = some "podcast_2" := by
  refine ⟨?_, ?_, ?_⟩ <;> decide
